import Mathlib

/-!
Shallow embedding of `src/lenovo-agent/agent.py` (qubes-kvm-agent), covering:

* `run_cmd` (lines 83-99): the synchronous command executor;
* `ws_shell` (lines 277-315): the WebSocket streaming shell session;
* `read_file` / `write_file` (lines 246-272): the file endpoints.

External behaviour (the OS shell, the subprocess pipes, the JSON decoder,
the transport) is passed in as explicit data: the embedding is a function of
the code together with the environment responses the code consumes.
-/

namespace QubesKvmAgent

/-- CommandResult model (agent.py lines 60-64): exit code, captured stdout and
stderr, and the measured duration in milliseconds. -/
structure CommandResult where
  exit_code : Int
  stdout : String
  stderr : String
  duration_ms : Nat
deriving DecidableEq

/-- Outcome of the `subprocess.run(cmd, shell=True, capture_output=True,
text=True, cwd=..., timeout=...)` call inside `run_cmd` (agent.py line 86):
the process ran to completion with a return code and two captured texts, or
`subprocess.TimeoutExpired` was raised, or spawning itself raised an OS error
(for example `FileNotFoundError` for a nonexistent working directory; with
`shell=True` a command that is not found does NOT raise — the shell reports it
via return code 127 as a `completed` outcome). -/
inductive RunOutcome
| completed (returncode : Int) (stdout stderr : String)
| timedOut
| spawnFailure (msg : String)
deriving DecidableEq

/-- Python slice `s[-n:]` for a positive `n`: the last `n` characters of `s`
(all of `s` when it is shorter than `n`). -/
def pyTail (s : String) (n : Nat) : String :=
  String.mk (s.data.drop (s.data.length - n))

/-- run_cmd (agent.py lines 83-99). The `try` block catches ONLY
`subprocess.TimeoutExpired`; any other exception raised by `subprocess.run`
(such as a spawn failure from a bad working directory) propagates to the
caller, which we model as `Except.error`. On completion the captured streams
are truncated with `r.stdout[-50000:]` and `r.stderr[-10000:]`; on timeout the
result is `exit_code=124, stdout="", stderr="TIMEOUT"`. `elapsedMs` is the
monotonic-clock duration `int((time.monotonic() - start) * 1000)`. -/
def runCmd (outcome : RunOutcome) (elapsedMs : Nat) : Except String CommandResult :=
  match outcome with
  | .completed rc out err =>
      .ok { exit_code := rc
            stdout := pyTail out 50000
            stderr := pyTail err 10000
            duration_ms := elapsedMs }
  | .timedOut =>
      .ok { exit_code := 124, stdout := "", stderr := "TIMEOUT", duration_ms := elapsedMs }
  | .spawnFailure m => .error m

/-- Output channel of the streamed subprocess (agent.py lines 306-309). -/
inductive Channel
| stdout
| stderr
deriving DecidableEq

/-- Event frame sent over the WebSocket: an output line
`{"stream": ..., "line": ...}` (agent.py lines 301-304) or the completion
frame `{"done": true, "exit_code": ...}` (agent.py line 312). -/
inductive Event
| outputLine (channel : Channel) (text : String)
| completion (exit_code : Int)
deriving DecidableEq

/-- Behaviour of one spawned subprocess as observed through its two pipes and
its exit status: the raw lines delivered by `async for line in proc.stdout`
and `async for line in proc.stderr` (each line as decoded text, still carrying
its trailing newline where the pipe had one), and the code `proc.wait()`
returns. -/
structure ProcOutput where
  outLines : List String
  errLines : List String
  exitCode : Int
deriving DecidableEq

/-- Python exceptions relevant to the embedded handlers. `ws_shell` catches
only `WebSocketDisconnect` (agent.py line 314); `run_cmd` catches only
`subprocess.TimeoutExpired`; every exception below escapes the handler it is
raised in. -/
inductive PyErr
| jsonDecodeError
| spawnOSError
| isADirectoryError
| notADirectoryError
deriving DecidableEq

/-- Observable actions the `ws_shell` handler performs on the subprocess and
the transport. `terminated` (sending the child a termination signal) is in the
vocabulary so that claims about it can be stated; the handler body
(agent.py lines 284-315) contains no `proc.terminate()` or `proc.kill()`
call, so no run of the model ever emits it. -/
inductive Action
| spawned (cmd : String) (cwd : String)
| sent (e : Event)
| waited
| terminated
deriving DecidableEq

/-- Result of processing one received text frame inside the `while True` loop
of `ws_shell`: an exception other than `WebSocketDisconnect` escaped (the
session is torn down by the framework), or `WebSocketDisconnect` surfaced and
was caught by the `except` clause (the handler returns silently), or the
iteration finished normally and the loop waits for the next submission. -/
inductive StepResult
| raised (e : PyErr)
| disconnected
| completedNormally
deriving DecidableEq

/-- Lookup of a key in a decoded JSON object, modelled as an association list
with string values (the protocol schema of `{"command": ..., "cwd": ...}`). -/
def lookupKey : List (String × String) → String → Option String
  | [], _ => none
  | (k, v) :: rest, key => if k = key then some v else lookupKey rest key

/-- Python `msg.get(key, dflt)` on the decoded object. -/
def getStr (msg : List (String × String)) (key dflt : String) : String :=
  (lookupKey msg key).getD dflt

/-- Python `line.rstrip("\n")`: drop every trailing newline character. -/
def rstripNL (s : String) : String :=
  String.mk (s.data.reverse.dropWhile (fun c => c = '\n')).reverse

/-- Event produced for one raw pipe line (agent.py lines 301-304): the line is
decoded and its trailing newlines are stripped. -/
def lineEvent (ch : Channel) (raw : String) : Event :=
  .outputLine ch (rstripNL raw)

/-- Merge of the two drain tasks run by `asyncio.gather` (agent.py
lines 306-309). The scheduler decides at each step which ready drain task
sends next (`true` = stdout side, `false` = stderr side); both tasks always
run to end-of-stream, so the merge always contains every element of both
lists, each list in its own order. -/
def mergeBy : List Bool → List Event → List Event → List Event
  | [], xs, ys => xs ++ ys
  | _ :: _, [], ys => ys
  | _ :: _, x :: xs, [] => x :: xs
  | true :: s, x :: xs, y :: ys => x :: mergeBy s xs (y :: ys)
  | false :: s, x :: xs, y :: ys => y :: mergeBy s (x :: xs) ys

/-- Line events emitted while draining one subprocess, for one scheduling of
the two concurrent drain tasks. -/
def drainEvents (sched : List Bool) (p : ProcOutput) : List Event :=
  mergeBy sched (p.outLines.map (lineEvent .stdout)) (p.errLines.map (lineEvent .stderr))

/-- One iteration of the `while True` loop of `ws_shell` (agent.py
lines 286-312) on a received text frame.

* `decoded` is the result of `json.loads(data)`: a decode failure raises
  `json.JSONDecodeError`, which the handler does not catch.
* `spawn` gives the environment response to
  `asyncio.create_subprocess_shell(cmd, ..., cwd=cwd)`: either the subprocess
  behaviour or the OS error the call raises (also uncaught).
* `sched` schedules the two concurrent drains.
* `discAt = some n` means the transport connection breaks just before the
  n-th (0-based) successful `ws.send_json`, so that send raises
  `WebSocketDisconnect`, which propagates out of the loop and is caught by
  the `except WebSocketDisconnect: pass` clause. `none` means the connection
  stays up for the whole iteration.

The returned action list records, in order, what the handler did: the spawn,
each successful send, and the `proc.wait()` between the end of both drains and
the completion send. -/
def wsStep (defaultCwd : String) (sched : List Bool) (discAt : Option Nat)
    (decoded : Except PyErr (List (String × String)))
    (spawn : String → String → Except PyErr ProcOutput) :
    List Action × StepResult :=
  match decoded with
  | .error e => ([], .raised e)
  | .ok msg =>
    let cmd := getStr msg "command" ""
    let cwd := getStr msg "cwd" defaultCwd
    match spawn cmd cwd with
    | .error e => ([], .raised e)
    | .ok p =>
      let evs := drainEvents sched p
      match discAt with
      | none =>
        (Action.spawned cmd cwd ::
           (evs.map Action.sent ++ [Action.waited, Action.sent (Event.completion p.exitCode)]),
         .completedNormally)
      | some n =>
        if n < evs.length then
          (Action.spawned cmd cwd :: (evs.take n).map Action.sent, .disconnected)
        else if n = evs.length then
          (Action.spawned cmd cwd :: (evs.map Action.sent ++ [Action.waited]), .disconnected)
        else
          (Action.spawned cmd cwd ::
             (evs.map Action.sent ++ [Action.waited, Action.sent (Event.completion p.exitCode)]),
           .completedNormally)

/-- Events actually sent over the transport, in order, extracted from an
action trace. -/
def sentEvents : List Action → List Event
  | [] => []
  | .spawned _ _ :: rest => sentEvents rest
  | .sent e :: rest => e :: sentEvents rest
  | .waited :: rest => sentEvents rest
  | .terminated :: rest => sentEvents rest

/-- Recogniser for the completion frame. -/
def isCompletion : Event → Bool
  | .completion _ => true
  | .outputLine _ _ => false

/-- Number of completion frames sent in an action trace. -/
def completionSendCount (acts : List Action) : Nat :=
  ((sentEvents acts).filter isCompletion).length

/-- One inbound happening on the WebSocket as seen by `await
ws.receive_text()`: a text frame (together with the environment responses its
processing will consume), or the disconnect of the connection (which makes
`receive_text` raise `WebSocketDisconnect`). -/
inductive Incoming
| frame (decoded : Except PyErr (List (String × String)))
    (sched : List Bool) (discAt : Option Nat)
| disconnect

/-- How a run of the `ws_shell` session ends. `stillOpen`: the supplied
inbound prefix is exhausted and the loop is suspended in `receive_text`,
ready for the next submission. `closedByDisconnect`: `WebSocketDisconnect`
was raised and caught by the handler. `crashed`: another exception escaped
the handler and the framework tore the session down. -/
inductive SessionEnd
| stillOpen
| closedByDisconnect
| crashed (e : PyErr)
deriving DecidableEq

/-- The `while True` loop of `ws_shell` over a finite prefix of inbound
happenings, accumulating the handler's actions. -/
def sessionLoop (defaultCwd : String)
    (spawn : String → String → Except PyErr ProcOutput) :
    List Incoming → List Action × SessionEnd
  | [] => ([], .stillOpen)
  | .disconnect :: _ => ([], .closedByDisconnect)
  | .frame dec sched discAt :: rest =>
    match wsStep defaultCwd sched discAt dec spawn with
    | (acts, .raised e) => (acts, .crashed e)
    | (acts, .disconnected) => (acts, .closedByDisconnect)
    | (acts, .completedNormally) =>
      let cont := sessionLoop defaultCwd spawn rest
      (acts ++ cont.1, cont.2)

/-- Filesystem path, modelled the way `pathlib.Path` represents it: the
sequence of parts (`Path.parts`). `Path.parent` is `dropLast`. The claims
exercise no `~` expansion, so `expanduser` is the identity on these paths. -/
abbrev PathParts := List String

/-- Filesystem state visible to the two file endpoints: the text stored in
each regular file, and the set of existing directories (represented as a list;
membership is what matters). -/
structure FS where
  files : List (PathParts × String)
  dirs : List PathParts
deriving DecidableEq

/-- Content of the regular file at a path, if one exists. -/
def lookupFile : List (PathParts × String) → PathParts → Option String
  | [], _ => none
  | (q, c) :: rest, p => if q = p then some c else lookupFile rest p

/-- Store text at a path, overwriting any previous file there. -/
def setFile : List (PathParts × String) → PathParts → String → List (PathParts × String)
  | [], p, c => [(p, c)]
  | (q, d) :: rest, p, c => if q = p then (p, c) :: rest else (q, d) :: setFile rest p c

/-- Every nonempty initial segment of a path: the directories
`mkdir(parents=True)` creates (or finds) when asked to create the full path. -/
def initsUpTo : PathParts → List PathParts
  | [] => []
  | a :: rest => [a] :: (initsUpTo rest).map (fun q => a :: q)

/-- Response of the `/file/write` endpoint (agent.py line 272):
`{"path": ..., "bytes_written": len(req.content)}`. Note that the Python
expression `len(req.content)` is the number of CHARACTERS of the string. -/
structure WriteResp where
  path : PathParts
  bytes_written : Nat
deriving DecidableEq

/-- write_file (agent.py lines 266-272): `p.parent.mkdir(parents=True,
exist_ok=True)` then `p.write_text(req.content)`, answering
`{"path": str(p), "bytes_written": len(req.content)}`.

* If the path names an existing directory, `write_text` raises
  `IsADirectoryError` (uncaught — modelled as `Except.error`).
* If an initial segment of the parent chain is an existing regular file,
  `mkdir` raises (uncaught).
* Otherwise all parent directories are created (`exist_ok=True` makes
  re-creating existing ones a no-op; the directory set is a union, which the
  list representation realises by appending).
* `write_text` opens with `newline=None`, translating each written `"\n"` to
  `os.linesep`; the agent targets a Linux host where `os.linesep` is `"\n"`,
  so the stored text is the content unchanged. -/
def write_file (fs : FS) (path : PathParts) (content : String) :
    Except PyErr (FS × WriteResp) :=
  if path ∈ fs.dirs then .error .isADirectoryError
  else if (initsUpTo path.dropLast).any (fun q => (lookupFile fs.files q).isSome) then
    .error .notADirectoryError
  else
    .ok ({ files := setFile fs.files path content
           dirs := initsUpTo path.dropLast ++ fs.dirs },
         { path := path, bytes_written := content.data.length })

/-- Python line-boundary characters recognised by `str.splitlines`. -/
def isBreak (c : Char) : Bool :=
  c = '\n' || c = '\r' || c = '\x0B' || c = '\x0C' ||
  c = Char.ofNat 0x1C || c = Char.ofNat 0x1D || c = Char.ofNat 0x1E ||
  c = Char.ofNat 0x85 || c = Char.ofNat 0x2028 || c = Char.ofNat 0x2029

/-- Universal-newline translation performed by `p.read_text()` (which opens
the file with `newline=None`): each `"\r\n"` pair and each lone `"\r"` in the
stored text becomes a single `"\n"` in the returned string. -/
def univNL : List Char → List Char
  | [] => []
  | [c] => [if c = '\r' then '\n' else c]
  | a :: b :: rest =>
    if a = '\r' then
      if b = '\n' then '\n' :: univNL rest
      else '\n' :: univNL (b :: rest)
    else a :: univNL (b :: rest)

/-- Python `text.splitlines(keepends=True)`: split at line boundaries, each
piece keeping its boundary characters (`"\r\n"` is one boundary). The
accumulator holds the characters of the current line in reverse. -/
def splitKeepAux : List Char → List Char → List (List Char)
  | acc, [] => if acc.isEmpty then [] else [acc.reverse]
  | acc, [a] =>
    if isBreak a then [acc.reverse ++ [a]] else [(a :: acc).reverse]
  | acc, a :: b :: rest =>
    if a = '\r' then
      if b = '\n' then (acc.reverse ++ ['\r', '\n']) :: splitKeepAux [] rest
      else (acc.reverse ++ ['\r']) :: splitKeepAux [] (b :: rest)
    else if isBreak a then (acc.reverse ++ [a]) :: splitKeepAux [] (b :: rest)
    else splitKeepAux (a :: acc) (b :: rest)

/-- Python `text.splitlines()` (keepends=False): like `splitKeepAux` but the
boundary characters are dropped from each piece. -/
def splitNoKeepAux : List Char → List Char → List (List Char)
  | acc, [] => if acc.isEmpty then [] else [acc.reverse]
  | acc, [a] =>
    if isBreak a then [acc.reverse] else [(a :: acc).reverse]
  | acc, a :: b :: rest =>
    if a = '\r' then
      if b = '\n' then acc.reverse :: splitNoKeepAux [] rest
      else acc.reverse :: splitNoKeepAux [] (b :: rest)
    else if isBreak a then acc.reverse :: splitNoKeepAux [] (b :: rest)
    else splitNoKeepAux (a :: acc) (b :: rest)

/-- Concatenation of a list of character lists (Python `"".join(lines)`). -/
def concatAll : List (List Char) → List Char
  | [] => []
  | l :: rest => l ++ concatAll rest

/-- Line count of a string as Python computes it: `len(s.splitlines())`. -/
def lineCount (s : String) : Nat :=
  (splitNoKeepAux [] s.data).length

/-- HTTP client errors the `/file/read` endpoint raises via `HTTPException`:
404 for a missing path, 400 for a path that exists but is not a regular
file. -/
inductive HTTPError
| notFound
| badRequest
deriving DecidableEq

/-- Response of the `/file/read` endpoint (agent.py line 263). -/
structure ReadResp where
  path : PathParts
  content : String
  total_lines : Nat
deriving DecidableEq

/-- read_file (agent.py lines 246-263): 404 when the path does not exist, 400
when it is not a regular file; otherwise `text = p.read_text(errors="replace")`
(universal-newline translation of the stored text; the stored text is valid
text in this model, so `errors="replace"` substitutes nothing),
`lines = text.splitlines(keepends=True)`, then `lines = lines[offset:]` only
when `offset > 0` and `lines = lines[:limit]` only when `limit > 0`, answering
`{"path": str(p), "content": "".join(lines),
"total_lines": len(text.splitlines())}`. -/
def read_file (fs : FS) (path : PathParts) (offset limit : Int) :
    Except HTTPError ReadResp :=
  match lookupFile fs.files path with
  | none => if path ∈ fs.dirs then .error .badRequest else .error .notFound
  | some stored =>
    let text : List Char := univNL stored.data
    let lines := splitKeepAux [] text
    let lines := if offset > 0 then lines.drop offset.toNat else lines
    let lines := if limit > 0 then lines.take limit.toNat else lines
    .ok { path := path
          content := String.mk (concatAll lines)
          total_lines := (splitNoKeepAux [] text).length }

/-- Number of bytes `p.write_text(s)` puts in the file: the length of the
UTF-8 encoding of `s` (the stored text equals `s` on the Linux host, see
`write_file`). -/
def utf8Len (s : String) : Nat :=
  s.data.foldl (fun n c => n + c.utf8Size) 0

/-- Round trip of claim C8: write `content` at `path`, then read that path
back with `offset = 0` and `limit = 0`; answer the returned `content` and
`total_lines` (or `none` if either endpoint raised). -/
def roundTrip (fs : FS) (path : PathParts) (content : String) :
    Option (String × Nat) :=
  match write_file fs path content with
  | .error _ => none
  | .ok (fs2, _) =>
    match read_file fs2 path 0 0 with
    | .error _ => none
    | .ok r => some (r.content, r.total_lines)

/-- Reported `bytes_written` of a write (or `none` if the write raised). -/
def writtenCount (fs : FS) (path : PathParts) (content : String) : Option Nat :=
  match write_file fs path content with
  | .error _ => none
  | .ok (_, resp) => some resp.bytes_written

/-- Truth value of "the executor call returned a CommandResult" (as opposed
to an exception escaping it). -/
def isOkResult : Except String CommandResult → Bool
  | .ok _ => true
  | .error _ => false

/-- Recursion principle matching the two-characters-ahead pattern of
`univNL`, `splitKeepAux` and `splitNoKeepAux`. -/
def twoStep {p : List Char → Prop} (h0 : p []) (h1 : ∀ a, p [a])
    (h2 : ∀ a b rest, p rest → p (b :: rest) → p (a :: b :: rest)) :
    ∀ l, p l
  | [] => h0
  | [a] => h1 a
  | a :: b :: rest =>
    h2 a b rest (twoStep h0 h1 h2 rest) (twoStep h0 h1 h2 (b :: rest))

/-! Helper lemmas. -/

theorem mergeBy_nil_nil (s : List Bool) : mergeBy s [] [] = [] := by
  cases s with
  | nil => rfl
  | cons b s => cases b <;> rfl

theorem mem_mergeBy (a : Event) :
    ∀ (s : List Bool) (xs ys : List Event),
      a ∈ mergeBy s xs ys ↔ a ∈ xs ∨ a ∈ ys := by
  intro s
  induction s with
  | nil => intro xs ys; simp [mergeBy]
  | cons b s ih =>
    intro xs ys
    cases xs with
    | nil => simp [mergeBy]
    | cons x xs =>
      cases ys with
      | nil => simp [mergeBy]
      | cons y ys =>
        cases b with
        | true => simp [mergeBy, ih]; tauto
        | false => simp [mergeBy, ih]; tauto

theorem sentEvents_append (l m : List Action) :
    sentEvents (l ++ m) = sentEvents l ++ sentEvents m := by
  induction l with
  | nil => rfl
  | cons a l ih => cases a <;> simp [sentEvents, ih]

theorem sentEvents_map_sent (l : List Event) :
    sentEvents (l.map Action.sent) = l := by
  induction l with
  | nil => rfl
  | cons e l ih => simp [sentEvents, ih]

theorem drainEvents_no_completion (sched : List Bool) (p : ProcOutput) :
    ∀ e ∈ drainEvents sched p, isCompletion e = false := by
  intro e he
  rcases (mem_mergeBy e sched _ _).1 he with h | h <;>
    rcases List.mem_map.1 h with ⟨l, _, rfl⟩ <;> rfl

theorem out_mem_drainEvents (sched : List Bool) (p : ProcOutput)
    (l : String) (hl : l ∈ p.outLines) :
    lineEvent Channel.stdout l ∈ drainEvents sched p :=
  (mem_mergeBy _ sched _ _).2 (Or.inl (List.mem_map_of_mem _ hl))

theorem err_mem_drainEvents (sched : List Bool) (p : ProcOutput)
    (l : String) (hl : l ∈ p.errLines) :
    lineEvent Channel.stderr l ∈ drainEvents sched p :=
  (mem_mergeBy _ sched _ _).2 (Or.inr (List.mem_map_of_mem _ hl))

theorem completionSendCount_trace (cmd cwd : String) (evs : List Event) (c : Int)
    (hevs : ∀ e ∈ evs, isCompletion e = false) :
    completionSendCount
      (Action.spawned cmd cwd ::
        (evs.map Action.sent ++ [Action.waited, Action.sent (Event.completion c)])) = 1 := by
  unfold completionSendCount
  rw [show sentEvents (Action.spawned cmd cwd ::
        (evs.map Action.sent ++ [Action.waited, Action.sent (Event.completion c)]))
      = sentEvents (evs.map Action.sent ++ [Action.waited, Action.sent (Event.completion c)])
    from rfl]
  rw [sentEvents_append, sentEvents_map_sent]
  rw [List.filter_append]
  rw [List.filter_eq_nil_iff.mpr (by intro e he; simp [hevs e he])]
  simp [sentEvents, isCompletion]

theorem univNL_no_cr (l : List Char) : '\r' ∉ l → univNL l = l := by
  induction l using twoStep with
  | h0 => intro _; rfl
  | h1 a =>
    intro h
    have ha : ¬ a = '\r' := fun e => h (by simp [e])
    simp [univNL, ha]
  | h2 a b rest ih ih2 =>
    intro h
    have ha : ¬ a = '\r' := fun e => h (by simp [e])
    have hb : '\r' ∉ b :: rest := fun hm => h (List.mem_cons_of_mem a hm)
    simp [univNL, ha, ih2 hb]

theorem concat_splitKeepAux (l : List Char) :
    ∀ acc, concatAll (splitKeepAux acc l) = acc.reverse ++ l := by
  induction l using twoStep with
  | h0 => intro acc; cases acc <;> simp [splitKeepAux, concatAll]
  | h1 a =>
    intro acc
    by_cases h : isBreak a <;> simp [splitKeepAux, h, concatAll]
  | h2 a b rest ih ih2 =>
    intro acc
    by_cases hr : a = '\r'
    · subst hr
      by_cases hn : b = '\n'
      · subst hn; simp [splitKeepAux, concatAll, ih]
      · simp [splitKeepAux, hn, concatAll, ih2]
    · by_cases hb : isBreak a
      · simp [splitKeepAux, hr, hb, concatAll, ih2]
      · simp [splitKeepAux, hr, hb, ih2]

theorem lookupFile_setFile (fsf : List (PathParts × String)) (p : PathParts) (c : String) :
    lookupFile (setFile fsf p c) p = some c := by
  induction fsf with
  | nil => simp [setFile, lookupFile]
  | cons qd rest ih =>
    obtain ⟨q, d⟩ := qd
    by_cases h : q = p
    · simp [setFile, h, lookupFile]
    · simp [setFile, h, lookupFile, ih]

theorem foldl_utf8_ones (l : List Char) :
    ∀ i : Nat, (∀ c ∈ l, c.utf8Size = 1) →
      l.foldl (fun n c => n + c.utf8Size) i = i + l.length := by
  induction l with
  | nil => intro i _; simp
  | cons c rest ih =>
    intro i h
    have hc : c.utf8Size = 1 := h c (by simp)
    have hr : ∀ d ∈ rest, d.utf8Size = 1 := fun d hd => h d (by simp [hd])
    simp only [List.foldl_cons, hc, ih (i + 1) hr, List.length_cons]
    omega

theorem pyTail_spec (s : String) (n : Nat) :
    s.data = s.data.take (s.data.length - n) ++ (pyTail s n).data
    ∧ (pyTail s n).data.length = min n s.data.length := by
  constructor
  · exact (List.take_append_drop _ _).symm
  · show (s.data.drop (s.data.length - n)).length = _
    rw [List.length_drop]; omega

/-! Claim theorems. -/

/-- C6: for every command whose execution exceeds the timeout, the
synchronous executor returns exit_code 124, empty stdout, stderr exactly
"TIMEOUT", and the elapsed duration measured up to the timeout. -/
theorem runCmd_timeout (elapsedMs : Nat) :
    runCmd RunOutcome.timedOut elapsedMs
      = Except.ok { exit_code := 124, stdout := "", stderr := "TIMEOUT",
                    duration_ms := elapsedMs } := rfl

/-- C7: for every command that exits normally, the synchronous executor
returns its real exit code with stdout truncated to its last 50000 characters
and stderr to its last 10000 characters: the returned stream is the tail of
the captured one (the captured text splits as a discarded front followed by
exactly the returned tail, whose length is the limit or the full length,
whichever is smaller). -/
theorem runCmd_truncation (rc : Int) (out err : String) (elapsedMs : Nat) :
    runCmd (RunOutcome.completed rc out err) elapsedMs
      = Except.ok { exit_code := rc, stdout := pyTail out 50000,
                    stderr := pyTail err 10000, duration_ms := elapsedMs }
    ∧ out.data = out.data.take (out.data.length - 50000) ++ (pyTail out 50000).data
    ∧ (pyTail out 50000).data.length = min 50000 out.data.length
    ∧ err.data = err.data.take (err.data.length - 10000) ++ (pyTail err 10000).data
    ∧ (pyTail err 10000).data.length = min 10000 err.data.length :=
  ⟨rfl, (pyTail_spec out 50000).1, (pyTail_spec out 50000).2,
   (pyTail_spec err 10000).1, (pyTail_spec err 10000).2⟩

/-- C2 counterexample: at the concrete input where `subprocess.run` raises a
spawn failure (as a nonexistent working directory makes it do), the executor
does NOT return a CommandResult — the exception propagates out of `run_cmd`,
refuting "the synchronous executor never throws". -/
theorem runCmd_spawn_counterexample :
    runCmd (RunOutcome.spawnFailure "FileNotFoundError") 5
      = Except.error "FileNotFoundError"
    ∧ isOkResult (runCmd (RunOutcome.spawnFailure "FileNotFoundError") 5) = false := by
  exact ⟨rfl, rfl⟩

/-- C2 amended: the synchronous executor returns a CommandResult (never
throws) for every execution that completes or times out — a timeout is
encoded as exit code 124 and a command-not-found as the exit code the shell
reports in a completed outcome — but an OS-level spawn failure (such as a
nonexistent working directory) raises an exception that propagates to the
caller instead of being encoded in the result. -/
theorem runCmd_total_unless_spawn (outcome : RunOutcome) (elapsedMs : Nat)
    (h : ∀ m, outcome ≠ RunOutcome.spawnFailure m) :
    ∃ r, runCmd outcome elapsedMs = Except.ok r := by
  cases outcome with
  | completed rc out err => exact ⟨_, rfl⟩
  | timedOut => exact ⟨_, rfl⟩
  | spawnFailure m => exact absurd rfl (h m)

/-- C2 amended witness: the amended theorem at the timed-out outcome. -/
theorem runCmd_total_unless_spawn_witness :
    ∃ r, runCmd RunOutcome.timedOut 7 = Except.ok r :=
  runCmd_total_unless_spawn RunOutcome.timedOut 7
    (fun _ h => RunOutcome.noConfusion h)

/-- C1: for every command submitted to the stream session that runs to normal
completion (the spawn succeeds and the connection holds), the handler performs
exactly the trace spawn, then the merged output-line sends, then the wait on
the exit status, then one final Completion send carrying that status: the
Completion is sent exactly once, strictly after every OutputLine, after both
channels were drained to end-of-stream (every line of both pipes appears among
the sends) and after the process was waited on. -/
theorem ws_single_completion (defaultCwd : String) (sched : List Bool)
    (msg : List (String × String))
    (spawn : String → String → Except PyErr ProcOutput) (p : ProcOutput)
    (hspawn : spawn (getStr msg "command" "") (getStr msg "cwd" defaultCwd)
      = Except.ok p) :
    wsStep defaultCwd sched none (Except.ok msg) spawn
      = (Action.spawned (getStr msg "command" "") (getStr msg "cwd" defaultCwd) ::
           ((drainEvents sched p).map Action.sent ++
             [Action.waited, Action.sent (Event.completion p.exitCode)]),
         StepResult.completedNormally)
    ∧ completionSendCount (wsStep defaultCwd sched none (Except.ok msg) spawn).1 = 1
    ∧ (∀ e ∈ drainEvents sched p, isCompletion e = false)
    ∧ (∀ l ∈ p.outLines, lineEvent Channel.stdout l ∈ drainEvents sched p)
    ∧ (∀ l ∈ p.errLines, lineEvent Channel.stderr l ∈ drainEvents sched p) := by
  have htrace : wsStep defaultCwd sched none (Except.ok msg) spawn
      = (Action.spawned (getStr msg "command" "") (getStr msg "cwd" defaultCwd) ::
           ((drainEvents sched p).map Action.sent ++
             [Action.waited, Action.sent (Event.completion p.exitCode)]),
         StepResult.completedNormally) := by
    simp only [wsStep]
    rw [hspawn]
  refine ⟨htrace, ?_, drainEvents_no_completion sched p,
    out_mem_drainEvents sched p, err_mem_drainEvents sched p⟩
  rw [htrace]
  exact completionSendCount_trace _ _ _ _ (drainEvents_no_completion sched p)

/-- C1 witness: a session step on the submission {"command": "echo hi"} whose
subprocess prints one stdout line and exits 0 sends exactly one Completion
frame. -/
theorem ws_single_completion_witness :
    completionSendCount
      (wsStep "/proj" [] none (Except.ok [("command", "echo hi")])
        (fun _ _ => Except.ok ⟨["hi\n"], [], 0⟩)).1 = 1 :=
  (ws_single_completion "/proj" [] [("command", "echo hi")]
    (fun _ _ => Except.ok ⟨["hi\n"], [], 0⟩) ⟨["hi\n"], [], 0⟩ rfl).2.1

/-- C10: a decoded submission object with no "command" field is not rejected:
`msg.get("command", "")` substitutes the empty string, a shell is spawned for
that empty command (a POSIX shell runs the empty command with no output and
exit status 0, which is what the `hshell` hypothesis states about the
environment), and the handler sends exactly one Completion frame with
exit_code 0. -/
theorem ws_missing_command (defaultCwd : String) (sched : List Bool)
    (msg : List (String × String))
    (spawn : String → String → Except PyErr ProcOutput)
    (hnokey : lookupKey msg "command" = none)
    (hshell : spawn "" (getStr msg "cwd" defaultCwd) = Except.ok ⟨[], [], 0⟩) :
    wsStep defaultCwd sched none (Except.ok msg) spawn
      = ([Action.spawned "" (getStr msg "cwd" defaultCwd), Action.waited,
          Action.sent (Event.completion 0)],
         StepResult.completedNormally) := by
  have hcmd : getStr msg "command" "" = "" := by
    simp [getStr, hnokey]
  simp only [wsStep, hcmd]
  rw [hshell]
  simp [drainEvents, mergeBy_nil_nil]

/-- C10 witness: the submission {"cwd": "/tmp"} (no "command" field) yields
the Completion frame with exit code 0. -/
theorem ws_missing_command_witness :
    wsStep "/proj" [] none (Except.ok [("cwd", "/tmp")])
        (fun _ _ => Except.ok ⟨[], [], 0⟩)
      = ([Action.spawned "" "/tmp", Action.waited,
          Action.sent (Event.completion 0)],
         StepResult.completedNormally) := by
  have h := ws_missing_command "/proj" [] [("cwd", "/tmp")]
    (fun _ _ => Except.ok ⟨[], [], 0⟩) (by decide) rfl
  simpa [getStr, lookupKey] using h

/-- C4 counterexample: at a concrete submission whose subprocess spawn fails
(as with a nonexistent working directory), the handler sends NO event at all —
in particular no Completion-like error event — and the uncaught exception
terminates the session, refuting "emits an immediate Completion-like error
event to the caller". -/
theorem ws_spawn_failure_counterexample :
    wsStep "/proj" [] none
        (Except.ok [("command", "ls"), ("cwd", "/nonexistent")])
        (fun _ _ => Except.error PyErr.spawnOSError)
      = ([], StepResult.raised PyErr.spawnOSError)
    ∧ sentEvents
        (wsStep "/proj" [] none
          (Except.ok [("command", "ls"), ("cwd", "/nonexistent")])
          (fun _ _ => Except.error PyErr.spawnOSError)).1 = [] := by
  refine ⟨?_, ?_⟩ <;> rfl

/-- C4 amended: when the subprocess spawn of a streaming submission fails, the
raised OS error escapes the handler (only WebSocketDisconnect is caught), so
the session terminates immediately with no action performed and no event —
and no Completion-like error frame — sent to the caller; it neither hangs nor
enters a running phase. -/
theorem ws_spawn_failure_raises (defaultCwd : String) (sched : List Bool)
    (discAt : Option Nat) (msg : List (String × String))
    (spawn : String → String → Except PyErr ProcOutput) (e : PyErr)
    (hspawn : spawn (getStr msg "command" "") (getStr msg "cwd" defaultCwd)
      = Except.error e) :
    wsStep defaultCwd sched discAt (Except.ok msg) spawn
      = ([], StepResult.raised e) := by
  simp only [wsStep]
  rw [hspawn]

/-- C4 amended witness: the amended theorem at a concrete failing spawn. -/
theorem ws_spawn_failure_raises_witness :
    wsStep "/proj" [false] none (Except.ok [("command", "make")])
        (fun _ _ => Except.error PyErr.spawnOSError)
      = ([], StepResult.raised PyErr.spawnOSError) :=
  ws_spawn_failure_raises "/proj" [false] none [("command", "make")]
    (fun _ _ => Except.error PyErr.spawnOSError) PyErr.spawnOSError rfl

/-- C3 counterexample: a session that receives a malformed submission followed
by a well-formed one crashes on the first — `json.loads` raises and nothing
catches it — performing no action at all: the connection does not stay open
and the next submission is never processed, refuting "the stream session
survives". -/
theorem ws_decode_error_counterexample :
    sessionLoop "/proj" (fun _ _ => Except.ok ⟨["ok\n"], [], 0⟩)
        [Incoming.frame (Except.error PyErr.jsonDecodeError) [] none,
         Incoming.frame (Except.ok [("command", "echo ok")]) [] none]
      = ([], SessionEnd.crashed PyErr.jsonDecodeError) := rfl

/-- C3 amended: a streaming submission that fails to decode raises
`json.JSONDecodeError`, which is not caught (the handler catches only
WebSocketDisconnect), so the session crashes at once: no action is performed
and none of the following submissions on that connection is processed. -/
theorem ws_decode_error_crashes (defaultCwd : String)
    (spawn : String → String → Except PyErr ProcOutput)
    (sched : List Bool) (discAt : Option Nat) (rest : List Incoming) :
    sessionLoop defaultCwd spawn
        (Incoming.frame (Except.error PyErr.jsonDecodeError) sched discAt :: rest)
      = ([], SessionEnd.crashed PyErr.jsonDecodeError) := rfl

/-- C5 counterexample: at a concrete run where the connection closes while the
subprocess is running (the very first send already fails), the handler catches
the disconnect and stops after the spawn: it performs no termination-signal
action and no wait on the process, refuting "the session sends the subprocess
a termination signal and reaps it". -/
theorem ws_disconnect_counterexample :
    wsStep "/proj" [] (some 0) (Except.ok [("command", "sleep 999")])
        (fun _ _ => Except.ok ⟨["a\n"], [], 7⟩)
      = ([Action.spawned "sleep 999" "/proj"], StepResult.disconnected)
    ∧ Action.terminated ∉ [Action.spawned "sleep 999" "/proj"]
    ∧ Action.waited ∉ [Action.spawned "sleep 999" "/proj"] := by
  refine ⟨?_, by decide, by decide⟩
  rfl

/-- C5 amended: the handler never sends the subprocess a termination signal in
any run whatsoever — its body contains no terminate or kill call — so on
disconnect while a command runs, the `except WebSocketDisconnect: pass` clause
simply abandons the subprocess, which keeps running unsignalled. -/
theorem ws_never_terminates (defaultCwd : String) (sched : List Bool)
    (discAt : Option Nat) (decoded : Except PyErr (List (String × String)))
    (spawn : String → String → Except PyErr ProcOutput) :
    Action.terminated ∉ (wsStep defaultCwd sched discAt decoded spawn).1 := by
  cases decoded with
  | error e => simp [wsStep]
  | ok msg =>
    cases hs : spawn (getStr msg "command" "") (getStr msg "cwd" defaultCwd) with
    | error e => simp [wsStep, hs]
    | ok p =>
      cases discAt with
      | none =>
        simp only [wsStep, hs]
        simp [List.mem_map]
      | some n =>
        by_cases h1 : n < (drainEvents sched p).length
        · simp only [wsStep, hs]
          simp only [h1, if_true, List.mem_cons, not_or, ite_true]
          refine ⟨by simp, ?_⟩
          intro hmem
          rcases List.mem_map.1 hmem with ⟨e, _, heq⟩
          exact Action.noConfusion heq
        · by_cases h2 : n = (drainEvents sched p).length <;>
            · simp only [wsStep, hs]
              simp [h1, h2, List.mem_map]

/-- C8 counterexample: writing the content "a\rb" and reading it back with
offset=0, limit=0 returns the content "a\nb" — `read_text` opens the file in
universal-newline mode and translates the carriage return — which differs from
the written content, refuting the round-trip claim for every content
string. -/
theorem file_roundtrip_counterexample :
    roundTrip ⟨[], []⟩ ["tmp", "f"] "a\rb" = some ("a\nb", 2)
    ∧ ("a\nb" : String) ≠ "a\rb" := by decide

/-- C8 amended: for every content string C that contains no carriage-return
character, and every path P at which the write succeeds (P is not an existing
directory and no initial segment of its parent chain is an existing regular
file), writing C to P and then reading P with offset=0 and limit=0 returns
content equal to C and total_lines equal to the line count of C. For content
containing a carriage return, the universal-newline translation of read_text
returns a different string. -/
theorem file_roundtrip_no_cr (fs : FS) (path : PathParts) (content : String)
    (hcr : '\r' ∉ content.data)
    (hnd : path ∉ fs.dirs)
    (hpar : ∀ q ∈ initsUpTo path.dropLast, lookupFile fs.files q = none) :
    roundTrip fs path content = some (content, lineCount content) := by
  have hany : ((initsUpTo path.dropLast).any
      (fun q => (lookupFile fs.files q).isSome)) = false := by
    rw [List.any_eq_false]
    intro q hq
    simp [hpar q hq]
  unfold roundTrip write_file
  rw [if_neg hnd, if_neg (by simp [hany])]
  unfold read_file
  simp only [lookupFile_setFile]
  rw [univNL_no_cr content.data hcr]
  have hoff : ¬ ((0 : Int) > 0) := by decide
  rw [if_neg hoff, if_neg hoff]
  have hcontent : String.mk (concatAll (splitKeepAux [] content.data)) = content := by
    rw [concat_splitKeepAux content.data []]
    rfl
  simp [hcontent, lineCount]

/-- C8 amended witness: the round trip at a concrete carriage-return-free
content. -/
theorem file_roundtrip_no_cr_witness :
    roundTrip ⟨[], []⟩ ["home", "notes.txt"] "hello\nworld"
      = some ("hello\nworld", lineCount "hello\nworld") :=
  file_roundtrip_no_cr ⟨[], []⟩ ["home", "notes.txt"] "hello\nworld"
    (by decide) (by decide) (by decide)

/-- C9 counterexample: writing the one-character content "é" reports
bytes_written = 1, while the UTF-8 encoding that write_text puts in the file
is 2 bytes long — the endpoint returns the character count, not the number of
bytes written, refuting the claim at this input. -/
theorem write_bytes_counterexample :
    writtenCount ⟨[], []⟩ ["tmp", "g"] "é" = some 1
    ∧ utf8Len "é" = 2
    ∧ writtenCount ⟨[], []⟩ ["tmp", "g"] "é" ≠ some (utf8Len "é") := by decide

/-- C9 amended: for every path at which the write succeeds (the path is not an
existing directory and no initial segment of its parent chain is an existing
regular file) and every content, the file-write operation creates every
missing parent directory of the path, overwrites the file at the path with
the content, and returns the CHARACTER count of the content — which equals
the number of bytes written exactly when every character encodes to one UTF-8
byte. -/
theorem write_file_spec (fs : FS) (path : PathParts) (content : String)
    (hnd : path ∉ fs.dirs)
    (hpar : ∀ q ∈ initsUpTo path.dropLast, lookupFile fs.files q = none) :
    ∃ fs2, write_file fs path content
        = Except.ok (fs2, { path := path, bytes_written := content.data.length })
      ∧ lookupFile fs2.files path = some content
      ∧ (∀ q ∈ initsUpTo path.dropLast, q ∈ fs2.dirs)
      ∧ ((∀ c ∈ content.data, c.utf8Size = 1) → utf8Len content = content.data.length) := by
  have hany : ((initsUpTo path.dropLast).any
      (fun q => (lookupFile fs.files q).isSome)) = false := by
    rw [List.any_eq_false]
    intro q hq
    simp [hpar q hq]
  refine ⟨{ files := setFile fs.files path content
            dirs := initsUpTo path.dropLast ++ fs.dirs }, ?_, ?_, ?_, ?_⟩
  · unfold write_file
    rw [if_neg hnd, if_neg (by simp [hany])]
  · exact lookupFile_setFile fs.files path content
  · intro q hq
    exact List.mem_append_left _ hq
  · intro hone
    unfold utf8Len
    rw [foldl_utf8_ones content.data 0 hone]
    omega

/-- C9 amended witness: writing "hi" over an existing file, with one parent
directory to create. -/
theorem write_file_spec_witness :
    ∃ fs2, write_file ⟨[(["tmp", "old.txt"], "x")], []⟩ ["tmp", "old.txt"] "hi"
        = Except.ok (fs2, { path := ["tmp", "old.txt"],
                            bytes_written := ("hi" : String).data.length })
      ∧ lookupFile fs2.files ["tmp", "old.txt"] = some "hi"
      ∧ (∀ q ∈ initsUpTo (["tmp", "old.txt"] : PathParts).dropLast, q ∈ fs2.dirs)
      ∧ ((∀ c ∈ ("hi" : String).data, c.utf8Size = 1)
          → utf8Len "hi" = ("hi" : String).data.length) :=
  write_file_spec ⟨[(["tmp", "old.txt"], "x")], []⟩ ["tmp", "old.txt"] "hi"
    (by decide) (by decide)

end QubesKvmAgent
